import Mathlib

/-!
Verification of the SpeedConnect client.

Shallow embedding of the SpeedConnect React client (TypeScript sources):
the GameState components (part_001, part_002 with two variants, and
GameState.tsx), the WordSelection components (WordSelection.tsx and
part_003), and the final-results leaderboard sort. Times are modelled in
integer milliseconds; JS number subtraction plus Math.floor over 1000 is
Int.fdiv. JS Set objects over strings are modelled as insertion-ordered
duplicate-free lists. Fetched payloads are modelled as records; fields that
some server payloads omit are Option.
-/

namespace SpeedConnect

/-- A category of the current round: its label and its member words. -/
structure Category where
  name : String
  words : List String
deriving DecidableEq, Repr

/-- A player entry of a fetched game snapshot. The round_mistakes field is
absent from some payload variants, hence Option. -/
structure Player where
  id : String
  name : String
  score : Int
  joined_at : Int
  round_mistakes : Option Nat
deriving DecidableEq, Repr

/-- A fetched game snapshot (the gameData state of the GameState components). -/
structure GameData where
  status : String
  current_round : Nat
  words : List String
  categories : List Category
  players : List Player
  timer_start : Option Int
  timer_duration : Option Int
deriving DecidableEq, Repr

/-- The select endpoint response handed to onSelectionResult. -/
structure SelectionResult where
  correct : Bool
  category : Option String
  points_earned : Int
  new_score : Option Int
  eliminated : Bool
  time_expired : Bool
deriving DecidableEq, Repr

/-- The mistake limit: MAX_MISTAKES = 3 in every GameState variant. -/
def MAX_MISTAKES : Nat := 3

/-! ### part_001: local mistake tracking (claim C1) -/

/-- The part_001 GameState fields that track mistakes locally
(useState at lines 24-25). -/
structure MistakeState where
  mistakes : Nat
  isGameOverByMistakes : Bool
deriving DecidableEq, Repr

/-- The initial part_001 mistake state: useState(0) and useState(false). -/
def initMistakeState : MistakeState :=
  { mistakes := 0, isGameOverByMistakes := false }

/-- part_001 handleSelectionResult (lines 45-52), restricted to the mistake
fields: an incorrect result increments mistakes by one and sets
isGameOverByMistakes once the new count reaches MAX_MISTAKES. -/
def handleMistakeResult (s : MistakeState) (r : SelectionResult) : MistakeState :=
  if !r.correct then
    let newMistakes := s.mistakes + 1
    { mistakes := newMistakes
      isGameOverByMistakes :=
        if MAX_MISTAKES ≤ newMistakes then true else s.isGameOverByMistakes }
  else s

/-- part_001 render (lines 184-215): the WordSelection interface is shown
only when the player is not game-over by mistakes and the game is active. -/
def rendersWordSelection (s : MistakeState) (status : String) : Bool :=
  !s.isGameOverByMistakes && status == "active"

/-- A sequence of guess results as the part_001 client processes them: a
result can only arrive while the WordSelection interface is rendered, since
a guess is submitted from the rendered grid. -/
def processResults (status : String) : MistakeState → List SelectionResult → MistakeState
  | s, [] => s
  | s, r :: rs =>
    if rendersWordSelection s status then
      processResults status (handleMistakeResult s r) rs
    else
      processResults status s rs

/-- The invariant claimed for the part_001 mistake state: the count never
exceeds the limit and the game-over flag holds exactly when the limit is
reached. -/
def MistakeInv (s : MistakeState) : Prop :=
  s.mistakes ≤ MAX_MISTAKES ∧
    (s.isGameOverByMistakes = true ↔ MAX_MISTAKES ≤ s.mistakes)

/-! ### WordSelection: selection handling (claims C6, C9) -/

/-- part_003 toggleWord (lines 66-74) and WordSelection.tsx toggleWord
(lines 39-47, where gameOver is absent, that is, always false): ignore
empty slots, solved words and clicks after game over; deselect an already
selected word; otherwise add it only while fewer than 4 are selected. -/
def toggleWord (solvedWords : List String) (gameOver : Bool)
    (selectedWords : List String) (word : String) : List String :=
  if word = "" || solvedWords.contains word || gameOver then
    selectedWords
  else if selectedWords.contains word then
    selectedWords.filter (fun w => w != word)
  else if selectedWords.length < 4 then
    selectedWords ++ [word]
  else
    selectedWords

/-- part_003 submitSelection guard (line 77): the select request is issued
only when exactly 4 words are selected and the game is not over. -/
def submitIssuesRequest (selectedWords : List String) (gameOver : Bool) : Bool :=
  !(selectedWords.length != 4 || gameOver)

/-- A sequence of toggleWord clicks applied to the selection. -/
def applyToggles (solvedWords : List String) (gameOver : Bool)
    (sel : List String) (clicks : List String) : List String :=
  clicks.foldl (toggleWord solvedWords gameOver) sel

/-- The invariant of the selection list: no duplicates, at most 4 entries,
every entry a nonempty unsolved word of the grid. -/
def SelectionInv (grid solvedWords sel : List String) : Prop :=
  sel.Nodup ∧ sel.length ≤ 4 ∧
    ∀ w ∈ sel, w ∈ grid ∧ w ≠ "" ∧ w ∉ solvedWords

/-- An entry of the solvedGroups state of WordSelection. -/
structure SolvedGroup where
  words : List String
  category : String
deriving DecidableEq, Repr

/-- solvedGroups.flatMap(group => group.words). -/
def flatSolvedWords (solvedGroups : List SolvedGroup) : List String :=
  solvedGroups.flatMap (fun g => g.words)

/-- words.filter(word => !flatSolvedWords.includes(word)). -/
def unsolvedWords (words : List String) (solvedGroups : List SolvedGroup) : List String :=
  words.filter (fun w => !(flatSolvedWords solvedGroups).contains w)

/-- WordSelection organizedWords (WordSelection.tsx lines 27-37 and
part_003 lines 53-64): solved group words first, then the remaining
unsolved words; the while loop pushes empty strings until the length
reaches 16, appending exactly 16 - length entries when the length is below
16 and none otherwise, and slice(0, 16) is take 16. -/
def organizedWords (words : List String) (solvedGroups : List SolvedGroup) : List String :=
  let organized := flatSolvedWords solvedGroups ++ unsolvedWords words solvedGroups
  (organized ++ List.replicate (16 - organized.length) "").take 16

/-! ### Solved category names as a JS Set (claim C10) -/

/-- JS Set.prototype.add on the insertion-ordered set of solved category
names: the name is appended only when absent. -/
def setAdd (names : List String) (x : String) : List String :=
  if names.contains x then names else names ++ [x]

/-- part_001 handleSelectionResult (lines 53-71), restricted to the solved
category names: on a correct result carrying a category, add that name to
the set; GameState.tsx lines 87-93 are the same update. -/
def updateSolvedCategoryNames (names : List String) (r : SelectionResult) : List String :=
  if r.correct then
    match r.category with
    | some c => setAdd names c
    | none => names
  else names

/-- The rendered Solved Groups count (part_001 line 110): the size of the
set of solved category names. -/
def solvedGroupsCount (names : List String) : Nat := names.length

/-! ### Round timer (claims C2, C3, C5) -/

/-- The fixed session duration in seconds: GAME_DURATION (part_002 line 38). -/
def GAME_DURATION : Int := 300

/-- part_002 variant 1 calculateTimeRemaining (lines 46-51): the duration
is fixed at GAME_DURATION; start and now are millisecond instants. -/
def calculateTimeRemainingV1 (startTime now : Int) : Int :=
  let elapsedSeconds := (now - startTime).fdiv 1000
  max 0 (GAME_DURATION - elapsedSeconds)

/-- part_002 variant 2 calculateTimeRemaining (lines 532-538): the start
and the duration come from the snapshot timer fields. -/
def calculateTimeRemainingV2 (timerStart now timerDuration : Int) : Int :=
  let elapsedSeconds := (now - timerStart).fdiv 1000
  max 0 (timerDuration - elapsedSeconds)

/-- Outcome of the synchronous guard of startNextRound: whether the
next-round request is issued, and the isTimeExpired flag after the guard. -/
structure NextRoundAttempt where
  issuesRequest : Bool
  isTimeExpired : Bool
deriving DecidableEq, Repr

/-- part_002 variant 1 startNextRound guard (lines 118-123): abort and mark
time expired when timeRemaining is not positive or the flag is already set. -/
def startNextRoundV1 (timeRemaining : Int) (isTimeExpired : Bool) : NextRoundAttempt :=
  if timeRemaining ≤ 0 ∨ isTimeExpired = true then
    { issuesRequest := false, isTimeExpired := true }
  else
    { issuesRequest := true, isTimeExpired := isTimeExpired }

/-- part_002 variant 2 startNextRound guard (lines 580-585): only
timeRemaining is checked; a set isTimeExpired flag alone does not block. -/
def startNextRoundV2 (timeRemaining : Int) (isTimeExpired : Bool) : NextRoundAttempt :=
  if timeRemaining ≤ 0 then
    { issuesRequest := false, isTimeExpired := true }
  else
    { issuesRequest := true, isTimeExpired := isTimeExpired }

/-- GameState.tsx startNextRound (lines 45-78): there is no timer check at
all, the next-round request is always issued. -/
def startNextRoundTsxIssuesRequest : Bool := true

/-- JS String.prototype.includes on character lists: the needle occurs as a
contiguous run. -/
def charsContain (needle : List Char) : List Char → Bool
  | [] => needle.isEmpty
  | c :: cs => needle.isPrefixOf (c :: cs) || charsContain needle cs

/-- JS String.prototype.includes. -/
def jsIncludes (s needle : String) : Bool :=
  charsContain needle.data s.data

/-- part_002 rejected next-round handling (variant 1 lines 153-158, variant
2 lines 615-620): a rejection whose detail mentions the timer expiry sets
isTimeExpired; other rejections leave the flag unchanged. -/
def handleNextRoundRejection (detail : String) (isTimeExpired : Bool) : Bool :=
  if jsIncludes detail "Time\x27s up" then true else isTimeExpired

/-! ### Completion triggering (claim C5)

Two small transition systems over the timer-related fields, one per
part_002 variant, with completeRequests counting the POST completion
requests issued by the timer machinery. Events interleave sequentially.
The fetchGameState closures deserve care: they are recreated on every
render and close over that render's state, while the 5-second poll
(a useEffect whose only dependency is gameId) forever invokes the closure
created at mount. A fetch event therefore carries the value its invoked
closure captured: permanently none (variant 1 gameStartTime), or
permanently false (variant 2 isTimeExpired), on the polled path. The
ticking-interval effects list the relevant state in their dependencies,
so tick events read the live state.
-/

/-- Timer and completion state of part_002 variant 1. -/
structure TimerStateV1 where
  gameStartTime : Option Int
  isTimeExpired : Bool
  completeRequests : Nat
deriving DecidableEq, Repr

/-- Events of part_002 variant 1 touching the timer state. -/
inductive TimerEventV1 where
  /-- fetchGameState returning an active snapshot whose effective start
  instant is timerStart, observed at instant now (lines 60-70).
  capturedStart is the gameStartTime the invoked closure captured: the 5 s
  poll (deps only gameId) always runs the mount-time closure, whose
  capture is permanently none, so that path re-runs the initialisation on
  every poll. -/
  | fetchActive (capturedStart : Option Int) (timerStart now : Int)
  /-- one tick of the 1-second interval at instant now; the interval is
  armed only while the game is active, the start instant is set and the
  live flag is clear, since the effect deps include gameStartTime and
  isTimeExpired (lines 80-116). -/
  | tick (now : Int)
deriving DecidableEq, Repr

/-- The part_002 variant 1 timer step. A fetch whose closure captured a
set start instant is a no-op on these fields; the polled closure captured
none and so re-sets the start instant and re-checks expiry on every poll,
but never issues a completion request. A tick observing expiry sets the
flag, stops the interval and issues the completion request. -/
def stepV1 (s : TimerStateV1) (e : TimerEventV1) : TimerStateV1 :=
  match e with
  | .fetchActive capturedStart timerStart now =>
    match capturedStart with
    | some _ => s
    | none =>
      let remaining := calculateTimeRemainingV1 timerStart now
      { s with gameStartTime := some timerStart
               isTimeExpired := if remaining ≤ 0 then true else s.isTimeExpired }
  | .tick now =>
    match s.gameStartTime with
    | none => s
    | some st =>
      if s.isTimeExpired then s
      else
        let remaining := calculateTimeRemainingV1 st now
        if remaining ≤ 0 then
          { s with isTimeExpired := true, completeRequests := s.completeRequests + 1 }
        else s

/-- The initial part_002 variant 1 timer state. -/
def initTimerStateV1 : TimerStateV1 :=
  { gameStartTime := none, isTimeExpired := false, completeRequests := 0 }

/-- Run part_002 variant 1 timer events from the initial state. -/
def runV1 (events : List TimerEventV1) : TimerStateV1 :=
  events.foldl stepV1 initTimerStateV1

/-- Timer and completion state of part_002 variant 2. -/
structure TimerStateV2 where
  isTimeExpired : Bool
  completeRequests : Nat
deriving DecidableEq, Repr

/-- Events of part_002 variant 2 touching the timer state. -/
inductive TimerEventV2 where
  /-- fetchGameState for an active snapshot carrying timer fields
  (lines 547-571): when the remaining time has reached zero and the
  isTimeExpired value captured by the invoked closure is false, it sets
  the live flag and issues the completion request. capturedExpired is
  that captured value: the 5 s poll (deps only gameId) always runs the
  mount-time closure, whose capture is permanently false, so the live
  flag never suppresses the polled path. -/
  | fetch (capturedExpired : Bool) (timerStart now timerDuration : Int)
  /-- a tick of the timer interval (lines 683-703), armed only while the
  live flag is clear (the effect deps include isTimeExpired): on expiry
  it sets the flag and stops the interval but issues no completion
  request. -/
  | tick (timerStart now timerDuration : Int)
deriving DecidableEq, Repr

/-- The part_002 variant 2 timer step. -/
def stepV2 (s : TimerStateV2) (e : TimerEventV2) : TimerStateV2 :=
  match e with
  | .fetch capturedExpired timerStart now timerDuration =>
    let remaining := calculateTimeRemainingV2 timerStart now timerDuration
    if remaining ≤ 0 ∧ capturedExpired = false then
      { isTimeExpired := true, completeRequests := s.completeRequests + 1 }
    else s
  | .tick timerStart now timerDuration =>
    if s.isTimeExpired then s
    else
      let remaining := calculateTimeRemainingV2 timerStart now timerDuration
      if remaining ≤ 0 then { s with isTimeExpired := true } else s

/-- The initial part_002 variant 2 timer state. -/
def initTimerStateV2 : TimerStateV2 :=
  { isTimeExpired := false, completeRequests := 0 }

/-- Run part_002 variant 2 timer events from the initial state. -/
def runV2 (events : List TimerEventV2) : TimerStateV2 :=
  events.foldl stepV2 initTimerStateV2

/-- The invariant of the variant 1 completion counter: at most one request,
and none while the expiry flag is clear. No such invariant holds for
variant 2, whose polled fetch is never suppressed by the flag. -/
def TimerInvV1 (s : TimerStateV1) : Prop :=
  s.completeRequests ≤ 1 ∧ (s.isTimeExpired = false → s.completeRequests = 0)

/-! ### Mistake display and the fetched snapshot (claim C7) -/

/-- The roundMistakes value rendered by GameState.tsx (lines 131-136) and
part_002 variant 1 (line 282): the round_mistakes of the current player in
the snapshot, with 0 when the player or the field is absent. -/
def roundMistakesDisplayed (g : GameData) (currentPlayerId : String) : Nat :=
  match g.players.find? (fun p => p.id == currentPlayerId) with
  | some p => p.round_mistakes.getD 0
  | none => 0

/-- The part_001 client state relevant to the mistake display: the local
tally and the last fetched snapshot. -/
structure MistakeView where
  mistakes : Nat
  gameData : GameData
deriving DecidableEq, Repr

/-- The part_001 view of a snapshot before any guess: local tally 0. -/
def initMistakeView (g : GameData) : MistakeView :=
  { mistakes := 0, gameData := g }

/-- The synchronous effect of part_001 handleSelectionResult (lines 45-52)
on the mistake view: an incorrect result bumps the local tally only; the
snapshot is refreshed later by an asynchronous fetch. -/
def handleSelectionResultLocal (s : MistakeView) (r : SelectionResult) : MistakeView :=
  if !r.correct then { s with mistakes := s.mistakes + 1 } else s

/-- The mistake count part_001 renders (line 179): the local tally. -/
def displayedMistakesLocal (s : MistakeView) : Nat := s.mistakes

/-- part_002 variant 1 incorrect-guess handling (lines 189-198): the
snapshot is patched locally, overwriting the current player round_mistakes
with the old count plus one. -/
def patchRoundMistakes (g : GameData) (currentPlayerId : String) : GameData :=
  let newMistakesCount := roundMistakesDisplayed g currentPlayerId + 1
  { g with players := g.players.map (fun p =>
      if p.id == currentPlayerId then { p with round_mistakes := some newMistakesCount } else p) }

/-! ### Round advancement resets (claims C3, C8) -/

/-- The complete endpoint response. -/
structure GameResult where
  winner : Option Player
  final_leaderboard : List Player
deriving DecidableEq, Repr

/-- The useState fields of the part_002 variant 1 GameState component
(lines 21-35). -/
structure ClientStateV1 where
  gameData : Option GameData
  loading : Bool
  lastResult : Option SelectionResult
  gameResult : Option GameResult
  isEliminated : Bool
  solvedCategoryNames : List String
  solvedWords : List String
  timeRemaining : Int
  isTimeExpired : Bool
  gameState : String
  showFinalResults : Bool
  leaderboard : List Player
  playerScore : Int
  loadingFinalResults : Bool
  gameStartTime : Option Int
deriving DecidableEq, Repr

/-- part_002 variant 1 startNextRound success handler (lines 145-152):
reset round-scoped state but keep the timer running. -/
def startNextRoundSuccess (s : ClientStateV1) : ClientStateV1 :=
  { s with isEliminated := false
           solvedCategoryNames := []
           solvedWords := []
           lastResult := none }

/-- The useState fields of the first GameState.tsx variant (lines 21-27). -/
structure ClientStateTsx where
  gameData : Option GameData
  loading : Bool
  lastResult : Option SelectionResult
  gameResult : Option GameResult
  isEliminated : Bool
  solvedCategoryNames : List String
  solvedWords : List String
deriving DecidableEq, Repr

/-- GameState.tsx startNextRound success handler (lines 66-73). -/
def startNextRoundSuccessTsx (s : ClientStateTsx) : ClientStateTsx :=
  { s with isEliminated := false
           solvedCategoryNames := []
           solvedWords := []
           lastResult := none }

/-- The snapshot score of the current player, with the join payload score
as fallback (part_002 lines 279-280). -/
def backendScore (gd : Option GameData) (currentPlayerId : String) (joinScore : Int) : Int :=
  match gd with
  | some g =>
    match g.players.find? (fun p => p.id == currentPlayerId) with
    | some p => p.score
    | none => joinScore
  | none => joinScore

/-- The score part_002 variant 1 renders (line 281): the new_score of the
last result when present, otherwise the snapshot score. -/
def displayScore (s : ClientStateV1) (currentPlayerId : String) (joinScore : Int) : Int :=
  let backend := backendScore s.gameData currentPlayerId joinScore
  match s.lastResult with
  | some r => r.new_score.getD backend
  | none => backend

/-! ### Final-results leaderboard sort (claim C4) -/

/-- The leaderboard comparator key. The JS comparator reads
(player.score || 0); for player records carrying a score this is the score
itself. -/
def scoreKey (p : Player) : Int := p.score

/-- The relation realised by the part_002 final-results sort
(lines 440-441), comparator (a, b) => b.score - a.score: a may precede b
exactly when the score of a is at least the score of b. A JS stable sort
under this comparator keeps equal scores in input order, which is
insertionSort under this non-strict relation. -/
def scoreDescRel (a b : Player) : Prop := scoreKey b ≤ scoreKey a

instance : DecidableRel scoreDescRel :=
  fun a b => Int.decLe (scoreKey b) (scoreKey a)

instance : IsTotal Player scoreDescRel :=
  ⟨fun a b => le_total (scoreKey b) (scoreKey a)⟩

instance : IsTrans Player scoreDescRel :=
  ⟨fun _ _ _ hab hbc => le_trans hbc hab⟩

/-- The rendered order of the part_002 final-results leaderboard. -/
def sortLeaderboard (l : List Player) : List Player :=
  List.insertionSort scoreDescRel l

/-! ### Sample values used by counterexamples and witnesses -/

/-- A player who joined early, with the same score as the late joiner. -/
def earlyJoiner : Player :=
  { id := "p1", name := "Alpha", score := 5, joined_at := 1, round_mistakes := none }

/-- A player who joined late, with the same score as the early joiner. -/
def lateJoiner : Player :=
  { id := "p2", name := "Beta", score := 5, joined_at := 10, round_mistakes := none }

/-- An incorrect guess result. -/
def incorrectResult : SelectionResult :=
  { correct := false, category := none, points_earned := 0, new_score := none,
    eliminated := false, time_expired := false }

/-- A correct guess result resolving the Fruits category. -/
def correctFruitsResult : SelectionResult :=
  { correct := true, category := some "Fruits", points_earned := 10, new_score := some 10,
    eliminated := false, time_expired := false }

/-- A sample player with score 5 and no recorded round mistakes. -/
def alice : Player :=
  { id := "p1", name := "Alice", score := 5, joined_at := 1, round_mistakes := some 0 }

/-- A sample snapshot of an active game with the single player alice. -/
def sampleGameData : GameData :=
  { status := "active", current_round := 1,
    words := ["apple", "banana", "orange", "grape"],
    categories := [{ name := "Fruits", words := ["apple", "banana", "orange", "grape"] }],
    players := [alice],
    timer_start := some 0, timer_duration := some 300 }

/-- A sample part_002 variant 1 component state holding an optimistic last
result whose new_score differs from the snapshot score. -/
def sampleStateV1 : ClientStateV1 :=
  { gameData := some sampleGameData, loading := false,
    lastResult := some correctFruitsResult, gameResult := none,
    isEliminated := false, solvedCategoryNames := ["Fruits"],
    solvedWords := ["apple", "banana", "orange", "grape"],
    timeRemaining := 100, isTimeExpired := false, gameState := "active",
    showFinalResults := false, leaderboard := [], playerScore := 0,
    loadingFinalResults := false, gameStartTime := some 0 }

/-! ## Theorems -/

/-- C2 counterexample: the claim quantifies over every client variant, but
in the second part_002 variant a set time-expired flag with positive
timeRemaining does not block startNextRound; the next-round request is
still issued at timeRemaining = 5 with the flag set. -/
theorem c2_counterexample :
    (startNextRoundV2 5 true).issuesRequest = true ∧ ¬ ((5 : Int) ≤ 0) := by
  decide

/-- C2 amended: variant 1 of part_002 issues no next-round request once
timeRemaining is not positive or the time-expired flag is set; variant 2
guards only on timeRemaining; in both, a server rejection whose detail
contains the timer-expiry message sets the flag instead of retrying; the
GameState.tsx variant performs no timer check and always issues the
request. -/
theorem c2_next_round_guards (t : Int) (e : Bool) (d : String) :
    (t ≤ 0 ∨ e = true →
      (startNextRoundV1 t e).issuesRequest = false ∧ (startNextRoundV1 t e).isTimeExpired = true)
    ∧ (t ≤ 0 →
      (startNextRoundV2 t e).issuesRequest = false ∧ (startNextRoundV2 t e).isTimeExpired = true)
    ∧ (jsIncludes d "Time\x27s up" = true → handleNextRoundRejection d e = true)
    ∧ startNextRoundTsxIssuesRequest = true := by
  refine ⟨?_, ?_, ?_, rfl⟩
  · intro h
    unfold startNextRoundV1
    rw [if_pos h]
    exact ⟨rfl, rfl⟩
  · intro h
    unfold startNextRoundV2
    rw [if_pos h]
    exact ⟨rfl, rfl⟩
  · intro h
    unfold handleNextRoundRejection
    rw [if_pos h]

/-- Witness for the amended C2 at timeRemaining 0 and a timer-expiry
rejection detail. -/
theorem c2_witness :
    (startNextRoundV1 0 false).issuesRequest = false
    ∧ (startNextRoundV2 0 false).issuesRequest = false
    ∧ handleNextRoundRejection "Time\x27s up" true = true := by
  have h := c2_next_round_guards 0 false "Time\x27s up"
  exact ⟨(h.1 (Or.inl (by decide))).1, (h.2.1 (by decide)).1, h.2.2.1 (by decide)⟩

/-- C3 counterexample: the claim says the result never exceeds the
duration for every start instant and every current time, but when the
current time precedes the recorded start (a clock behind the server
instant) variant 1 returns 301 > 300. -/
theorem c3_counterexample :
    calculateTimeRemainingV1 1000 0 = 301
    ∧ GAME_DURATION < calculateTimeRemainingV1 1000 0 := by
  decide

/-- C3 amended: both calculateTimeRemaining variants return
max(0, duration - elapsed whole seconds), so the result is never negative,
and it does not exceed the duration provided the current time is not
before the recorded start; the start instant is untouched by a successful
next-round advance. -/
theorem c3_time_remaining_bounds (startTime now timerStart timerDuration : Int)
    (h1 : startTime ≤ now) (h2 : timerStart ≤ now) (h3 : 0 ≤ timerDuration) :
    0 ≤ calculateTimeRemainingV1 startTime now
    ∧ calculateTimeRemainingV1 startTime now ≤ GAME_DURATION
    ∧ 0 ≤ calculateTimeRemainingV2 timerStart now timerDuration
    ∧ calculateTimeRemainingV2 timerStart now timerDuration ≤ timerDuration
    ∧ (∀ s : ClientStateV1, (startNextRoundSuccess s).gameStartTime = s.gameStartTime) := by
  have e1 : (0 : Int) ≤ (now - startTime).fdiv 1000 :=
    Int.fdiv_nonneg (by omega) (by norm_num)
  have e2 : (0 : Int) ≤ (now - timerStart).fdiv 1000 :=
    Int.fdiv_nonneg (by omega) (by norm_num)
  refine ⟨le_max_left 0 _, ?_, le_max_left 0 _, ?_, fun s => rfl⟩
  · simp only [calculateTimeRemainingV1, GAME_DURATION]
    generalize (now - startTime).fdiv 1000 = a at e1
    omega
  · simp only [calculateTimeRemainingV2]
    generalize (now - timerStart).fdiv 1000 = a at e2
    omega

/-- Witness for the amended C3 at start 0, now 5000 ms, duration 300 s. -/
theorem c3_witness :
    calculateTimeRemainingV1 0 5000 ≤ GAME_DURATION
    ∧ 0 ≤ calculateTimeRemainingV2 0 5000 300
    ∧ calculateTimeRemainingV2 0 5000 300 ≤ 300 := by
  have h := c3_time_remaining_bounds 0 5000 0 300 (by decide) (by decide) (by decide)
  exact ⟨h.2.1, h.2.2.1, h.2.2.2.1⟩

/-- C4 counterexample: the rendered final-results leaderboard sorts by
score only; with equal scores the later-joined player that appears first
in the fetched array stays ranked above the earlier-joined player, so the
claimed join-timestamp tie-break does not hold. -/
theorem c4_counterexample :
    sortLeaderboard [lateJoiner, earlyJoiner] = [lateJoiner, earlyJoiner]
    ∧ scoreKey lateJoiner = scoreKey earlyJoiner
    ∧ earlyJoiner.joined_at < lateJoiner.joined_at := by
  decide

/-- C4 amended: the rendered final-results leaderboard is ordered by score
descending and is a permutation of the fetched list; equal scores keep the
order of the fetched array (the sort is stable), not the join timestamp. -/
theorem c4_leaderboard_sort (l : List Player) (a b : Player)
    (hab : scoreDescRel a b) (hsub : List.Sublist [a, b] l) :
    List.Sorted scoreDescRel (sortLeaderboard l)
    ∧ List.Perm (sortLeaderboard l) l
    ∧ List.Sublist [a, b] (sortLeaderboard l) :=
  ⟨List.sorted_insertionSort scoreDescRel l, List.perm_insertionSort scoreDescRel l,
    List.pair_sublist_insertionSort hab hsub⟩

/-- Witness for the amended C4 on the two-player tie. -/
theorem c4_witness :
    List.Sorted scoreDescRel (sortLeaderboard [lateJoiner, earlyJoiner])
    ∧ List.Sublist [lateJoiner, earlyJoiner] (sortLeaderboard [lateJoiner, earlyJoiner]) := by
  have h := c4_leaderboard_sort [lateJoiner, earlyJoiner] lateJoiner earlyJoiner
    (by decide) (List.Sublist.refl _)
  exact ⟨h.1, h.2.2⟩

/-- C8 counterexample: a successful round advance clears the last result,
and the displayed score falls back from the optimistic new_score (10) to
the snapshot score (5), so the displayed cumulative score is not untouched. -/
theorem c8_counterexample :
    displayScore sampleStateV1 "p1" 0 = 10
    ∧ displayScore (startNextRoundSuccess sampleStateV1) "p1" 0 = 5
    ∧ displayScore sampleStateV1 "p1" 0
        ≠ displayScore (startNextRoundSuccess sampleStateV1) "p1" 0 := by
  decide

/-- C8 amended: a successful round advance resets exactly the elimination
flag, the solved-category-name set, the solved-words list and the last
result, and leaves every other component state field unchanged (snapshot,
timer fields, start instant, leaderboard, player score, flags), in both
the part_002 variant 1 and the GameState.tsx component; after the reset
the displayed score equals the snapshot score, which may differ from the
optimistic value displayed before. -/
theorem c8_round_reset_frame (s : ClientStateV1) (t : ClientStateTsx)
    (currentPlayerId : String) (joinScore : Int) :
    (startNextRoundSuccess s).isEliminated = false
    ∧ (startNextRoundSuccess s).solvedCategoryNames = []
    ∧ (startNextRoundSuccess s).solvedWords = []
    ∧ (startNextRoundSuccess s).lastResult = none
    ∧ (startNextRoundSuccess s).gameData = s.gameData
    ∧ (startNextRoundSuccess s).loading = s.loading
    ∧ (startNextRoundSuccess s).gameResult = s.gameResult
    ∧ (startNextRoundSuccess s).timeRemaining = s.timeRemaining
    ∧ (startNextRoundSuccess s).isTimeExpired = s.isTimeExpired
    ∧ (startNextRoundSuccess s).gameState = s.gameState
    ∧ (startNextRoundSuccess s).showFinalResults = s.showFinalResults
    ∧ (startNextRoundSuccess s).leaderboard = s.leaderboard
    ∧ (startNextRoundSuccess s).playerScore = s.playerScore
    ∧ (startNextRoundSuccess s).loadingFinalResults = s.loadingFinalResults
    ∧ (startNextRoundSuccess s).gameStartTime = s.gameStartTime
    ∧ displayScore (startNextRoundSuccess s) currentPlayerId joinScore
        = backendScore s.gameData currentPlayerId joinScore
    ∧ (startNextRoundSuccessTsx t).isEliminated = false
    ∧ (startNextRoundSuccessTsx t).solvedCategoryNames = []
    ∧ (startNextRoundSuccessTsx t).solvedWords = []
    ∧ (startNextRoundSuccessTsx t).lastResult = none
    ∧ (startNextRoundSuccessTsx t).gameData = t.gameData
    ∧ (startNextRoundSuccessTsx t).loading = t.loading
    ∧ (startNextRoundSuccessTsx t).gameResult = t.gameResult :=
  ⟨rfl, rfl, rfl, rfl, rfl, rfl, rfl, rfl, rfl, rfl, rfl, rfl, rfl, rfl, rfl, rfl,
    rfl, rfl, rfl, rfl, rfl, rfl, rfl⟩

/-- C9: organizedWords always yields exactly 16 entries, beginning with
the solved-group words, followed by the remaining unsolved words, padded
with empty strings when fewer than 16 remain and truncated to 16 when
more. -/
theorem c9_organized_words (words : List String) (solvedGroups : List SolvedGroup) :
    (organizedWords words solvedGroups).length = 16
    ∧ ((flatSolvedWords solvedGroups).length ≤ 16 →
        (organizedWords words solvedGroups).take (flatSolvedWords solvedGroups).length
          = flatSolvedWords solvedGroups)
    ∧ (16 ≤ (flatSolvedWords solvedGroups ++ unsolvedWords words solvedGroups).length →
        organizedWords words solvedGroups
          = (flatSolvedWords solvedGroups ++ unsolvedWords words solvedGroups).take 16)
    ∧ ((flatSolvedWords solvedGroups ++ unsolvedWords words solvedGroups).length < 16 →
        organizedWords words solvedGroups
          = flatSolvedWords solvedGroups ++ unsolvedWords words solvedGroups
            ++ List.replicate
                (16 - (flatSolvedWords solvedGroups ++ unsolvedWords words solvedGroups).length)
                "") := by
  refine ⟨?_, ?_, ?_, ?_⟩
  · simp only [organizedWords, List.length_take, List.length_append, List.length_replicate]
    omega
  · intro h
    simp only [organizedWords]
    rw [List.take_take, min_eq_left h, List.append_assoc, List.take_left]
  · intro h
    have h0 : 16 - (flatSolvedWords solvedGroups ++ unsolvedWords words solvedGroups).length = 0 := by
      omega
    simp only [organizedWords, h0, List.replicate_zero, List.append_nil]
  · intro h
    simp only [List.length_append] at h
    simp only [organizedWords]
    have hlen :
        (flatSolvedWords solvedGroups ++ unsolvedWords words solvedGroups
          ++ List.replicate
              (16 - (flatSolvedWords solvedGroups ++ unsolvedWords words solvedGroups).length)
              "").length = 16 := by
      simp only [List.length_append, List.length_replicate]
      omega
    exact List.take_of_length_le (le_of_eq hlen)

/-- Witness for C9 at a padded input and at a truncated input. -/
theorem c9_witness :
    (organizedWords ["a", "b"] []).length = 16
    ∧ organizedWords ["a", "b"] []
        = flatSolvedWords [] ++ unsolvedWords ["a", "b"] []
          ++ List.replicate (16 - (flatSolvedWords [] ++ unsolvedWords ["a", "b"] []).length) ""
    ∧ organizedWords
          ["w1", "w2", "w3", "w4", "w5", "w6", "w7", "w8", "w9", "w10",
           "w11", "w12", "w13", "w14", "w15", "w16", "w17"] []
        = (flatSolvedWords []
            ++ unsolvedWords
                ["w1", "w2", "w3", "w4", "w5", "w6", "w7", "w8", "w9", "w10",
                 "w11", "w12", "w13", "w14", "w15", "w16", "w17"] []).take 16 := by
  refine ⟨(c9_organized_words ["a", "b"] []).1,
    (c9_organized_words ["a", "b"] []).2.2.2 (by decide),
    (c9_organized_words _ []).2.2.1 (by decide)⟩

/-- C10: processing a correct result for a category name already in the
solved set leaves the set, and hence the displayed Solved Groups count,
unchanged. -/
theorem c10_solved_count_idempotent (names : List String) (r : SelectionResult) (c : String)
    (h1 : r.correct = true) (h2 : r.category = some c) (h3 : names.contains c = true) :
    updateSolvedCategoryNames names r = names
    ∧ solvedGroupsCount (updateSolvedCategoryNames names r) = solvedGroupsCount names := by
  have hm : c ∈ names := by simpa using h3
  have he : updateSolvedCategoryNames names r = names := by
    simp [updateSolvedCategoryNames, h1, h2, setAdd, h3, hm]
  exact ⟨he, by rw [he]⟩

/-- Witness for C10: adding the already solved Fruits category again. -/
theorem c10_witness :
    updateSolvedCategoryNames ["Fruits"] correctFruitsResult = ["Fruits"]
    ∧ solvedGroupsCount (updateSolvedCategoryNames ["Fruits"] correctFruitsResult)
        = solvedGroupsCount ["Fruits"] := by
  exact c10_solved_count_idempotent ["Fruits"] correctFruitsResult "Fruits" rfl rfl (by decide)

/-- An incorrect result processed while the game-over flag is clear keeps
the part_001 mistake invariant. -/
theorem handleMistakeResult_inv (s : MistakeState) (r : SelectionResult)
    (hflag : s.isGameOverByMistakes = false) (h : MistakeInv s) :
    MistakeInv (handleMistakeResult s r) := by
  obtain ⟨h1, h2⟩ := h
  have hm : s.mistakes < MAX_MISTAKES := by
    by_contra hc
    have ht := h2.mpr (by omega)
    rw [hflag] at ht
    cases ht
  unfold handleMistakeResult
  by_cases hc : r.correct = true
  · simp only [hc, Bool.not_true, Bool.false_eq_true, if_false]
    exact ⟨h1, h2⟩
  · have hc' : r.correct = false := by
      cases hx : r.correct
      · rfl
      · exact absurd hx hc
    simp only [hc', Bool.not_false, if_true]
    refine ⟨?_, ?_⟩
    · show s.mistakes + 1 ≤ MAX_MISTAKES
      omega
    · show (if MAX_MISTAKES ≤ s.mistakes + 1 then true else s.isGameOverByMistakes) = true
        ↔ MAX_MISTAKES ≤ s.mistakes + 1
      by_cases hge : MAX_MISTAKES ≤ s.mistakes + 1
      · simp [hge]
      · simp [hge, hflag]

/-- Processing any guarded sequence of results keeps the part_001 mistake
invariant. -/
theorem processResults_inv (status : String) :
    ∀ (rs : List SelectionResult) (s : MistakeState),
      MistakeInv s → MistakeInv (processResults status s rs) := by
  intro rs
  induction rs with
  | nil => exact fun s h => h
  | cons r rs ih =>
    intro s h
    simp only [processResults]
    split
    · rename_i hren
      have hflag : s.isGameOverByMistakes = false := by
        cases hb : s.isGameOverByMistakes
        · rfl
        · unfold rendersWordSelection at hren
          rw [hb] at hren
          simp at hren
      exact ih _ (handleMistakeResult_inv s r hflag h)
    · exact ih _ h

/-- C1: across every sequence of guess results the part_001 client can
process, the local mistake count never exceeds MAX_MISTAKES = 3, the
game-over-by-mistakes flag holds exactly when the count has reached 3, and
while that flag is set the WordSelection interface is not rendered, so no
further guess can be submitted. -/
theorem c1_mistake_limit (status : String) (rs : List SelectionResult) :
    MistakeInv (processResults status initMistakeState rs)
    ∧ (∀ s : MistakeState, s.isGameOverByMistakes = true →
        rendersWordSelection s status = false) := by
  refine ⟨processResults_inv status rs initMistakeState ⟨by decide, by decide⟩, ?_⟩
  intro s hs
  unfold rendersWordSelection
  rw [hs]
  rfl

/-- Witness for C1: four incorrect results in a row cap the count at 3 and
leave the interface unrendered. -/
theorem c1_witness :
    MistakeInv (processResults "active" initMistakeState
      [incorrectResult, incorrectResult, incorrectResult, incorrectResult])
    ∧ rendersWordSelection
        (processResults "active" initMistakeState
          [incorrectResult, incorrectResult, incorrectResult, incorrectResult]) "active"
        = false := by
  refine ⟨(c1_mistake_limit "active"
      [incorrectResult, incorrectResult, incorrectResult, incorrectResult]).1,
    (c1_mistake_limit "active"
      [incorrectResult, incorrectResult, incorrectResult, incorrectResult]).2 _ ?_⟩
  decide

/-- C5 counterexample: in part_002 variant 2 the 5-second poll invokes
the mount-time fetchGameState closure whose captured isTimeExpired is
permanently false, so although the first expired poll sets the live flag,
the next expired poll that still sees an active session issues the
completion request again: two polls yield two requests, not exactly one. -/
theorem c5_counterexample :
    (runV2 [TimerEventV2.fetch false 0 400000 300]).isTimeExpired = true
    ∧ (runV2 [TimerEventV2.fetch false 0 400000 300,
        TimerEventV2.fetch false 0 405000 300]).completeRequests = 2
    ∧ (runV2 [TimerEventV2.tick 0 400000 300]).isTimeExpired = true
    ∧ (runV2 [TimerEventV2.tick 0 400000 300,
        TimerEventV2.fetch false 0 405000 300]).completeRequests = 1 := by
  decide

/-- Each part_002 variant 1 timer step keeps the completion-count
invariant. -/
theorem stepV1_inv (s : TimerStateV1) (e : TimerEventV1) (h : TimerInvV1 s) :
    TimerInvV1 (stepV1 s e) := by
  obtain ⟨gst, exp, calls⟩ := s
  obtain ⟨h1, h2⟩ := h
  cases e with
  | fetchActive cap ts now =>
    cases cap with
    | some st => exact ⟨h1, h2⟩
    | none =>
      refine ⟨h1, ?_⟩
      intro hexp
      simp only [stepV1] at hexp ⊢
      split at hexp
      · cases hexp
      · exact h2 hexp
  | tick now =>
    cases gst with
    | none => exact ⟨h1, h2⟩
    | some st =>
      cases exp with
      | true =>
        simp only [stepV1, if_true]
        exact ⟨h1, h2⟩
      | false =>
        have h0 : calls = 0 := h2 rfl
        by_cases hr : calculateTimeRemainingV1 st now ≤ 0
        · refine ⟨?_, ?_⟩
          · show (stepV1 ⟨some st, false, calls⟩ (TimerEventV1.tick now)).completeRequests ≤ 1
            simp [stepV1, hr, h0]
          · intro hx
            simp [stepV1, hr] at hx
        · refine ⟨?_, fun _ => ?_⟩
          · show (stepV1 ⟨some st, false, calls⟩ (TimerEventV1.tick now)).completeRequests ≤ 1
            simp [stepV1, hr, h0]
          · show (stepV1 ⟨some st, false, calls⟩ (TimerEventV1.tick now)).completeRequests = 0
            simp [stepV1, hr, h0]

/-- Folding part_002 variant 1 timer events keeps the invariant. -/
theorem foldl_stepV1_inv (es : List TimerEventV1) :
    ∀ s : TimerStateV1, TimerInvV1 s → TimerInvV1 (es.foldl stepV1 s) := by
  induction es with
  | nil => exact fun s h => h
  | cons e es ih => exact fun s h => ih _ (stepV1_inv s e h)

/-- C5 amended: in part_002 variant 1 the timer machinery issues the
completion request at most once along any event sequence - the fetch path
never issues one whatever its closure captured, a tick taken with the flag
set issues none and keeps the flag, and a tick first observing expiry
issues exactly one and sets the flag; in part_002 variant 2 the polled
fetch runs with a captured flag that is permanently false, so every poll
observing an expired but still active session issues the completion
request regardless of the live flag, while the timer tick only sets the
flag and never issues one. -/
theorem c5_completion_requests (es : List TimerEventV1)
    (s : TimerStateV1) (cap : Option Int) (ts now : Int)
    (s2 : TimerStateV2) (ts2 now2 dur : Int) :
    TimerInvV1 (runV1 es)
    ∧ (stepV1 s (TimerEventV1.fetchActive cap ts now)).completeRequests = s.completeRequests
    ∧ (s.isTimeExpired = true →
        (stepV1 s (TimerEventV1.fetchActive cap ts now)).isTimeExpired = true)
    ∧ (s.isTimeExpired = true →
        (stepV1 s (TimerEventV1.tick now)).completeRequests = s.completeRequests
        ∧ (stepV1 s (TimerEventV1.tick now)).isTimeExpired = true)
    ∧ (s.isTimeExpired = false → s.gameStartTime = some ts →
        calculateTimeRemainingV1 ts now ≤ 0 →
        (stepV1 s (TimerEventV1.tick now)).completeRequests = s.completeRequests + 1
        ∧ (stepV1 s (TimerEventV1.tick now)).isTimeExpired = true)
    ∧ (calculateTimeRemainingV2 ts2 now2 dur ≤ 0 →
        (stepV2 s2 (TimerEventV2.fetch false ts2 now2 dur)).completeRequests
          = s2.completeRequests + 1
        ∧ (stepV2 s2 (TimerEventV2.fetch false ts2 now2 dur)).isTimeExpired = true)
    ∧ (stepV2 s2 (TimerEventV2.tick ts2 now2 dur)).completeRequests
        = s2.completeRequests := by
  obtain ⟨gst, exp, calls⟩ := s
  obtain ⟨exp2, calls2⟩ := s2
  refine ⟨foldl_stepV1_inv es initTimerStateV1 ⟨by decide, by decide⟩,
    ?_, ?_, ?_, ?_, ?_, ?_⟩
  · cases cap with
    | some st => rfl
    | none => rfl
  · intro hexp
    cases hexp
    cases cap with
    | some st => rfl
    | none => simp [stepV1]
  · intro hexp
    cases hexp
    cases gst with
    | none => exact ⟨rfl, rfl⟩
    | some st => constructor <;> simp [stepV1]
  · intro hexp hst hr
    cases hexp
    cases hst
    constructor <;> simp [stepV1, hr]
  · intro hr
    constructor <;> simp [stepV2, hr]
  · cases exp2 with
    | true => rfl
    | false =>
      by_cases hr : calculateTimeRemainingV2 ts2 now2 dur ≤ 0
      · simp [stepV2, hr]
      · simp [stepV2, hr]

/-- Witness for the amended C5 at concrete states: the variant 1 fetch
never fires and its tick fires once on first observation, while the
variant 2 polled fetch fires even with the live flag already set. -/
theorem c5_witness :
    (stepV1 { gameStartTime := some 0, isTimeExpired := true, completeRequests := 1 }
        (TimerEventV1.fetchActive none 0 500000)).completeRequests = 1
    ∧ (stepV1 { gameStartTime := some 0, isTimeExpired := true, completeRequests := 1 }
        (TimerEventV1.tick 500000)).completeRequests = 1
    ∧ (stepV1 { gameStartTime := some 0, isTimeExpired := false, completeRequests := 0 }
        (TimerEventV1.tick 400000)).completeRequests = 0 + 1
    ∧ (stepV2 { isTimeExpired := true, completeRequests := 1 }
        (TimerEventV2.fetch false 0 500000 300)).completeRequests = 1 + 1 := by
  have ha := c5_completion_requests []
    { gameStartTime := some 0, isTimeExpired := true, completeRequests := 1 }
    none 0 500000
    { isTimeExpired := true, completeRequests := 1 } 0 500000 300
  have hb := c5_completion_requests []
    { gameStartTime := some 0, isTimeExpired := false, completeRequests := 0 }
    none 0 400000
    { isTimeExpired := false, completeRequests := 0 } 0 400000 300
  exact ⟨ha.2.1, (ha.2.2.2.1 rfl).1, (hb.2.2.2.2.1 rfl rfl (by decide)).1,
    (ha.2.2.2.2.2.1 (by decide)).1⟩

/-- One toggleWord click on a grid word keeps the selection invariant. -/
theorem toggleWord_inv (grid solvedWords : List String) (gameOver : Bool)
    (sel : List String) (word : String) (hw : word ∈ grid)
    (h : SelectionInv grid solvedWords sel) :
    SelectionInv grid solvedWords (toggleWord solvedWords gameOver sel word) := by
  obtain ⟨hnd, hlen, hmem⟩ := h
  unfold toggleWord
  split
  · exact ⟨hnd, hlen, hmem⟩
  · rename_i hguard
    have hg : (¬ word = "" ∧ word ∉ solvedWords) ∧ gameOver = false := by
      simpa [not_or] using hguard
    split
    · refine ⟨hnd.filter _, ?_, ?_⟩
      · exact le_trans (List.length_filter_le _ _) hlen
      · intro w hwmem
        exact hmem w (List.mem_of_mem_filter hwmem)
    · rename_i hnotin
      have hwnotin : word ∉ sel := by simpa using hnotin
      split
      · rename_i hlt
        refine ⟨?_, ?_, ?_⟩
        · exact (List.nodup_append).mpr
            ⟨hnd, List.nodup_singleton word,
              fun a ha hb => hwnotin ((List.mem_singleton.mp hb) ▸ ha)⟩
        · simp only [List.length_append, List.length_singleton]
          omega
        · intro w hwmem
          rcases List.mem_append.mp hwmem with hold | hnew
          · exact hmem w hold
          · rw [List.mem_singleton.mp hnew]
            exact ⟨hw, hg.1.1, hg.1.2⟩
      · exact ⟨hnd, hlen, hmem⟩

/-- A sequence of toggleWord clicks on grid words keeps the selection
invariant. -/
theorem applyToggles_inv (grid solvedWords : List String) (gameOver : Bool) :
    ∀ (clicks sel : List String),
      (∀ w ∈ clicks, w ∈ grid) → SelectionInv grid solvedWords sel →
      SelectionInv grid solvedWords (applyToggles solvedWords gameOver sel clicks) := by
  intro clicks
  induction clicks with
  | nil => exact fun sel _ h => h
  | cons c cs ih =>
    intro sel hc h
    exact ih _ (fun w hwmem => hc w (List.mem_cons_of_mem _ hwmem))
      (toggleWord_inv grid solvedWords gameOver sel c (hc c (List.mem_cons_self c cs)) h)

/-- C6: starting from an empty selection, any sequence of toggleWord
clicks on grid words leaves a selection that is duplicate-free, at most 4
long, and made of nonempty unsolved grid words, and submitSelection issues
the select request only when exactly 4 words are selected and the game is
not over; hence every issued guess carries exactly 4 distinct words of the
current grid. -/
theorem c6_guess_exactly_four_distinct (grid solvedWords clicks : List String)
    (gameOver : Bool) (hclicks : ∀ w ∈ clicks, w ∈ grid) :
    SelectionInv grid solvedWords (applyToggles solvedWords gameOver [] clicks)
    ∧ (submitIssuesRequest (applyToggles solvedWords gameOver [] clicks) gameOver = true →
        (applyToggles solvedWords gameOver [] clicks).length = 4 ∧ gameOver = false) := by
  refine ⟨applyToggles_inv grid solvedWords gameOver clicks [] hclicks
    ⟨List.nodup_nil, by simp, by simp⟩, fun hsub => ?_⟩
  unfold submitIssuesRequest at hsub
  simp only [Bool.not_eq_true', Bool.or_eq_false_iff, bne_eq_false_iff_eq] at hsub
  exact hsub

/-- Witness for C6: selecting four distinct grid words. -/
theorem c6_witness :
    (∀ w ∈ ["a", "b", "c", "d"], w ∈ ["a", "b", "c", "d"])
    ∧ SelectionInv ["a", "b", "c", "d"] [] (applyToggles [] false [] ["a", "b", "c", "d"])
    ∧ (applyToggles [] false [] ["a", "b", "c", "d"]).length = 4 := by
  have h := c6_guess_exactly_four_distinct ["a", "b", "c", "d"] [] ["a", "b", "c", "d"]
    false (by decide)
  exact ⟨by decide, h.1, (h.2 (by decide)).1⟩

/-- C7 counterexample: after one incorrect result the part_001 client
displays the locally tallied count 1 while the untouched snapshot still
records 0, so the displayed count does not equal the most recently fetched
snapshot value. -/
theorem c7_counterexample :
    displayedMistakesLocal
        (handleSelectionResultLocal (initMistakeView sampleGameData) incorrectResult) = 1
    ∧ roundMistakesDisplayed
        (handleSelectionResultLocal (initMistakeView sampleGameData) incorrectResult).gameData
        "p1" = 0
    ∧ displayedMistakesLocal
        (handleSelectionResultLocal (initMistakeView sampleGameData) incorrectResult)
      ≠ roundMistakesDisplayed
          (handleSelectionResultLocal (initMistakeView sampleGameData) incorrectResult).gameData
          "p1" := by
  decide

/-- Finding the current player commutes with the part_002 variant 1 local
patch of round_mistakes. -/
theorem find?_patch (players : List Player) (pid : String) (n : Nat) :
    (players.map
        (fun q => if q.id == pid then { q with round_mistakes := some n } else q)).find?
        (fun q => q.id == pid)
      = (players.find? (fun q => q.id == pid)).map
          (fun q => if q.id == pid then { q with round_mistakes := some n } else q) := by
  rw [List.find?_map]
  have hcomp : ((fun q : Player => q.id == pid) ∘
      (fun q : Player => if q.id == pid then { q with round_mistakes := some n } else q))
      = fun q : Player => q.id == pid := by
    funext q
    by_cases hq : (q.id == pid) = true
    · simp [Function.comp, hq]
    · simp [Function.comp, hq]
  rw [hcomp]

/-- C7 amended: the GameState.tsx client displays exactly the snapshot
round_mistakes of the current player (default 0); the part_001 client
instead maintains a local tally that an incorrect result increments
without touching the snapshot, and the part_002 variant 1 client patches
the snapshot locally to the old count plus one, both diverging from the
fetched ledger until the next poll. -/
theorem c7_mistake_display (g : GameData) (pid : String) (p : Player)
    (s : MistakeView) (r : SelectionResult) :
    (g.players.find? (fun q => q.id == pid) = some p →
      roundMistakesDisplayed g pid = p.round_mistakes.getD 0)
    ∧ (r.correct = false →
      (handleSelectionResultLocal s r).mistakes = s.mistakes + 1
      ∧ (handleSelectionResultLocal s r).gameData = s.gameData)
    ∧ (g.players.find? (fun q => q.id == pid) = some p →
      roundMistakesDisplayed (patchRoundMistakes g pid) pid = p.round_mistakes.getD 0 + 1) := by
  refine ⟨?_, ?_, ?_⟩
  · intro hf
    simp [roundMistakesDisplayed, hf]
  · intro hr
    unfold handleSelectionResultLocal
    rw [hr]
    exact ⟨rfl, rfl⟩
  · intro hf
    have hpr0 := List.find?_some hf
    have hpr : (p.id == pid) = true := hpr0
    have hbase : roundMistakesDisplayed g pid = p.round_mistakes.getD 0 := by
      simp [roundMistakesDisplayed, hf]
    rw [← hbase]
    generalize hn : roundMistakesDisplayed g pid + 1 = n
    simp only [patchRoundMistakes]
    rw [hn]
    simp only [roundMistakesDisplayed]
    rw [find?_patch, hf]
    have hpq : p.id = pid := by simpa using hpr
    simp [hpq]

/-- Witness for the amended C7 on the sample snapshot. -/
theorem c7_witness :
    sampleGameData.players.find? (fun q => q.id == "p1") = some alice
    ∧ roundMistakesDisplayed sampleGameData "p1" = alice.round_mistakes.getD 0
    ∧ roundMistakesDisplayed (patchRoundMistakes sampleGameData "p1") "p1"
        = alice.round_mistakes.getD 0 + 1
    ∧ (handleSelectionResultLocal (initMistakeView sampleGameData) incorrectResult).mistakes
        = 0 + 1 := by
  have h := c7_mistake_display sampleGameData "p1" alice
    (initMistakeView sampleGameData) incorrectResult
  exact ⟨by decide, h.1 (by decide), h.2.2 (by decide), (h.2.1 (by decide)).1⟩

end SpeedConnect
